import Mathlib

/-!
Verification development for the MayaCmd render-farm plugin (MayaCmd.py).

The development shallowly embeds the output-stream interpretation engine of
the plugin: the ordered stdout-pattern registry built by `InitializeProcess`,
the per-line handlers that mutate the progress state, the catch-all
error-message classifier `HandleErrorMessage`, and the exit-code classifier
`CheckExitCode`.

Modelling conventions:
- Python strings are Lean `String`s; the Python `str.find(sub) != -1` test
  (substring containment) is `pyContains`.
- Python integers are `Int` (or `Nat` for counters that start at 0 and are
  only incremented); the Python floor division `//` is `Int.fdiv`.
- Python floats are modelled as `Rat`.  Every float computed by the code in
  the claims under study is an exact small rational (quotients of integers
  bounded by a few thousand), and the bounds proved (membership in
  `[0, 100]`) transfer to IEEE doubles because rounding to nearest never
  crosses the representable values 0 and 100.
- The host-side `.NET Regex.IsMatch` (unanchored search) is modelled by a
  Brzozowski-derivative matcher over a regex syntax `Rx`; each registered
  pattern is translated node by node from the pattern string in the source.
- Handlers fire with their captured groups already extracted: the `Evt`
  type carries, per handler, the data the handler reads from
  `GetRegexMatch`.
-/

/-- Single-quote (apostrophe) character as a string, used to build message
literals from the source that contain it. -/
def apos : String := (Char.ofNat 39).toString

/-- Auxiliary for substring containment on character lists: does `sub`
occur (contiguously) in the second list? -/
def containsSub (sub : List Char) : List Char → Bool
  | [] => sub.isEmpty
  | c :: cs => sub.isPrefixOf (c :: cs) || containsSub sub cs

/-- The Python `s.find(sub) != -1` test: `sub` occurs as a substring of `s`. -/
def pyContains (s sub : String) : Bool := containsSub sub.data s.data

/-! ## Regex syntax and Brzozowski-derivative matcher -/

/-- Regex syntax: the fragment used by the patterns registered in
`InitializeProcess` (literals, character classes, concatenation,
alternation, Kleene star). -/
inductive Rx where
  | nomatch
  | eps
  | cls (p : Char → Bool)
  | cat (a b : Rx)
  | alt (a b : Rx)
  | star (a : Rx)

/-- Does the regex accept the empty string? -/
def Rx.nullable : Rx → Bool
  | .nomatch => false
  | .eps => true
  | .cls _ => false
  | .cat a b => a.nullable && b.nullable
  | .alt a b => a.nullable || b.nullable
  | .star _ => true

/-- Smart concatenation (keeps derivatives small). -/
def Rx.scat : Rx → Rx → Rx
  | .nomatch, _ => .nomatch
  | _, .nomatch => .nomatch
  | .eps, b => b
  | a, .eps => a
  | a, b => .cat a b

/-- Smart alternation (keeps derivatives small). -/
def Rx.salt : Rx → Rx → Rx
  | .nomatch, b => b
  | a, .nomatch => a
  | a, b => .alt a b

/-- Brzozowski derivative of a regex with respect to one character. -/
def Rx.deriv (c : Char) : Rx → Rx
  | .nomatch => .nomatch
  | .eps => .nomatch
  | .cls p => if p c then .eps else .nomatch
  | .cat a b => Rx.salt (Rx.scat (a.deriv c) b) (if a.nullable then b.deriv c else .nomatch)
  | .alt a b => Rx.salt (a.deriv c) (b.deriv c)
  | .star a => Rx.scat (a.deriv c) (.star a)

/-- Full-match acceptance via character-by-character derivatives. -/
def rxAccepts (r : Rx) (line : String) : Bool :=
  (line.data.foldl (fun r c => r.deriv c) r).nullable

/-- Any single character (regex `.`; lines contain no newline). -/
def rany : Rx := Rx.cls (fun _ => true)

/-- Kleene star over any character (regex `.*`). -/
def anyStar : Rx := Rx.star rany

/-- Single literal character. -/
def rchar (c : Char) : Rx := Rx.cls (fun x => x == c)

/-- Literal string. -/
def rlit (s : String) : Rx := s.data.foldr (fun c r => Rx.cat (rchar c) r) Rx.eps

/-- Digit class (regex `[0-9]` and `\d`). -/
def rdigit : Rx := Rx.cls Char.isDigit

/-- Letter class (regex `[a-zA-Z]`). -/
def ralpha : Rx := Rx.cls Char.isAlpha

/-- Any character but a dot (regex `[^\.]`). -/
def rnondot : Rx := Rx.cls (fun c => !(c == '.'))

/-- One or more repetitions (regex `+`). -/
def rplus (r : Rx) : Rx := Rx.cat r (Rx.star r)

/-- Zero or one repetition (regex `?`, and `[-]?`). -/
def ropt (r : Rx) : Rx := Rx.alt r Rx.eps

/-- Concatenation of a list of regexes. -/
def rcat (rs : List Rx) : Rx := rs.foldr Rx.cat Rx.eps

/-- Unanchored search (`Regex.IsMatch` semantics): the pattern may match
any substring of the line. -/
def rsearch (r : Rx) : Rx := Rx.cat anyStar (Rx.cat r anyStar)

/-- Unanchored search for a pattern whose source ends in `$`: the match
must reach the end of the line. -/
def rsearchEnd (r : Rx) : Rx := Rx.cat anyStar r

/-! ## Exit-code classification (`CheckExitCode`, MayaCmd.py lines 1078-1085) -/

/-- Outcome of classifying the renderer exit code: success (optionally
with a log note), or task failure with a reason. -/
inductive ExitOutcome where
  | success (note : Option String)
  | fail (reason : String)
  deriving DecidableEq

/-- The fixed diagnostic reported for exit code 206 (line 1081). -/
def cmdLineFailMsg : String :=
  "Maya could not parse the command line. Two common causes for this are using the wrong project directory, or using a drive root ( i.e. \"c:\\\" ) as the output directory."

/-- The log note emitted when exit code 211 is ignored (line 1083). -/
def code211Note : String :=
  "Renderer reported an error with error code 211. This will be ignored, since the option to ignore it is specified in the Job Properties."

/-- The generic non-zero exit-code failure message (line 1085). -/
def genericExitMsg (exitCode : Int) : String :=
  "Renderer returned non-zero error code " ++ toString exitCode ++ ". Check the renderer" ++ apos ++ "s output."

/-- `CheckExitCode` (lines 1078-1085): classify the subprocess exit code.
`ignoreError211` is the boolean plugin-info entry `IgnoreError211`
(default `False`, line 231). -/
def CheckExitCode (exitCode : Int) (ignoreError211 : Bool) : ExitOutcome :=
  if exitCode ≠ 0 then
    if exitCode = 206 then
      .fail cmdLineFailMsg
    else if exitCode = 211 ∧ ignoreError211 then
      .success (some code211Note)
    else
      .fail (genericExitMsg exitCode)
  else
    .success none

/-! ## Catch-all error/warning classification (`HandleErrorMessage`, lines 1113-1200) -/

/-- Effect of the catch-all error handler: fail the render, tolerate with a
logged warning, or suppress the line from the visible log. -/
inductive ErrEffect where
  | fail (reason : String)
  | warn (note : String)
  | suppress
  deriving DecidableEq

/-- `GetBooleanPluginInfoEntryWithDefault` / `GetBooleanConfigEntryWithDefault`:
a possibly-absent boolean entry with a default. -/
def getBooleanEntryWithDefault (entry : Option Bool) (dflt : Bool) : Bool :=
  entry.getD dflt

/-- The `ignoreError` computation of `HandleErrorMessage` (lines 1123-1190):
`true` unless the matched text contains one of the known-fatal substrings.
Every branch of the `elif` chain in the source sets `ignoreError = False`, so the
chain is the negation of the disjunction of its conditions, kept in source
order.  The commented-out entries of the source ("Error: Cannot find procedure ",
"Error: No object matches name:", "was not found on MAYA_PLUG_IN_PATH.") are
omitted exactly as in the source. -/
def ignoreErrorCheck (errorMessage : String) : Bool :=
  !(pyContains errorMessage "could not get a license"
    || pyContains errorMessage "This scene does not have any renderable cameras"
    || (pyContains errorMessage "Error: Camera" && pyContains errorMessage "does not exist")
    || pyContains errorMessage "Warning: The post-processing failed while attempting to rename file"
    || pyContains errorMessage "Error: Failed to open IFF file for reading"
    || pyContains errorMessage "Error: An exception has occurred, rendering aborted."
    || pyContains errorMessage "Cannot open project"
    || pyContains errorMessage "Could not open file. :"
    || pyContains errorMessage "Error reading file. :"
    || pyContains errorMessage "Error: Scene was not loaded properly, please check the scene name"
    || pyContains errorMessage "Error: Graphics card capabilities are insufficient for rendering."
    || (pyContains errorMessage "Error: The attribute " && pyContains errorMessage "was locked in a referenced file, and cannot be unlocked.")
    || pyContains errorMessage "Not enough storage is available to process this command."
    || pyContains errorMessage "Error: (Mayatomr) : mental ray has stopped with errors, see the log"
    || pyContains errorMessage ("Warning: (Mayatomr.Scene) : no render camera found, final scene will be incomplete and can" ++ apos ++ "t be rendered")
    || pyContains errorMessage "mental ray: out of memory"
    || pyContains errorMessage "The specified module could not be found."
    || pyContains errorMessage "Error: (Mayatomr.Export) : mental ray startup failed with errors"
    || pyContains errorMessage "Number of arguments on call to preLayerScript does not match number of parameters in procedure definition."
    || pyContains errorMessage "Error: rman Fatal:"
    || pyContains errorMessage "rman Error:"
    || pyContains errorMessage "Error: There was a fatal error rendering the scene."
    || pyContains errorMessage "Could not obtain a license"
    || pyContains errorMessage "Could not read V-Ray environment variable"
    || (pyContains errorMessage "error 101003:" && pyContains errorMessage ("can" ++ apos ++ "t create file"))
    || pyContains errorMessage ("can" ++ apos ++ "t create file (No such file or directory)")
    || pyContains errorMessage "Fatal Error:"
    || pyContains errorMessage "Error writing render region to raw image file."
    || pyContains errorMessage "Error: OctaneRender is not activated!"
    || pyContains errorMessage "Error: R12001")

/-- The warning logged when strict checking is off (line 1121). -/
def strictOffNote : String :=
  "Strict error checking off, ignoring the following error or warning:"

/-- The warning logged for an unrecognized tolerated error (line 1198). -/
def unrecognizedNote : String :=
  "Strict error checking on, ignoring the following unrecognized error or warning. If it is fatal, please email support@thinkboxsoftware.com with the error message."

/-- The failure reason built for a recognized fatal error (line 1200). -/
def strictFailMsg (errorMessage : String) : String :=
  "Strict error checking on, caught the following error or warning.\n" ++ errorMessage ++ "\nIf this error message is unavoidable but not fatal, please email support@thinkboxsoftware.com with the error message, and disable the Maya job setting Strict Error Checking."

/-- `HandleErrorMessage` (lines 1113-1200).  `strictErrorChecking` is the
plugin-info entry `StrictErrorChecking` (default `True`, line 1120);
`suppressWarnings` is the config entry `SuppressWarnings` (default `False`,
line 1194).  `FailRender` aborts the task, so the "Cannot load scene" check
(lines 1116-1118) pre-empts everything else. -/
def HandleErrorMessage (strictErrorChecking suppressWarnings : Option Bool)
    (errorMessage : String) : ErrEffect :=
  if pyContains errorMessage "Cannot load scene" then
    .fail errorMessage
  else if !(getBooleanEntryWithDefault strictErrorChecking true) then
    .warn strictOffNote
  else if ignoreErrorCheck errorMessage then
    if getBooleanEntryWithDefault suppressWarnings false && pyContains errorMessage "Warning:" then
      .suppress
    else
      .warn unrecognizedNote
  else
    .fail (strictFailMsg errorMessage)

/-! ## The stdout-handler registry (`InitializeProcess`, lines 96-188)

Each `AddStdoutHandlerCallback(pattern).HandleCallback += handler` call in
the source contributes one `MatchRule` (pattern, handler), in source order.
The renderer string has already been lowercased by the source (line 102).
-/

/-- Names of the stdout-handler methods of the plugin class. -/
inductive HandlerId where
  | handleFumeFXProgress
  | handleFatalError
  | handleUsageError
  | handleChunkedProgress1
  | handleChunkedProgress2
  | handleStatusMessage
  | handleRedshiftGPUAffinityError
  | handleErrorMessage
  | handleMentalRayProgress
  | handleMentalRayGathering
  | handleMentalRayWritingFrame
  | handleMentalRayComplete
  | handleProgressMessage1
  | handleProgressMessage2
  | handleProgressMessage3
  | handleVrayMessage
  | handleVrayProgress
  | handleVrayFrameComplete
  | handleVrayExportProgress
  | handleVrayExportComplete
  | handleRendermanProgress
  | handlePointCloudOutput
  | handleOctaneStartFrame
  | handleOctaneProgress
  | handleCausticVisualizerCurrentFrame
  | handleCausticVisualizerTotalPasses
  | handleCausticVisualizerCurrentPass
  deriving DecidableEq, Repr

/-- One registered stdout rule: a pattern (already wrapped with the
unanchored-search semantics of `Regex.IsMatch`) and the handler it fires. -/
structure MatchRule where
  rx : Rx
  handler : HandlerId

/-- FumeFX handlers, lines 96-100. -/
def fumeFXRules : List MatchRule := [
  -- ".*FumeFX: Starting simulation \(([-]?[0-9]+) - ([-]?[0-9]+)\).*"
  ⟨rsearch (rcat [anyStar, rlit "FumeFX: Starting simulation (", ropt (rchar '-'), rplus rdigit,
      rlit " - ", ropt (rchar '-'), rplus rdigit, rlit ")", anyStar]), .handleFumeFXProgress⟩,
  -- ".*FumeFX: Frame: ([-]?[0-9]+)"
  ⟨rsearch (rcat [anyStar, rlit "FumeFX: Frame: ", ropt (rchar '-'), rplus rdigit]), .handleFumeFXProgress⟩,
  -- ".*FumeFX: Memory used: ([0-9]+[a-zA-Z]*)"
  ⟨rsearch (rcat [anyStar, rlit "FumeFX: Memory used: ", rplus rdigit, Rx.star ralpha]), .handleFumeFXProgress⟩,
  -- ".*FumeFX: Frame Time: ([0-9]+:[0-9]+\.[0-9]+)"
  ⟨rsearch (rcat [anyStar, rlit "FumeFX: Frame Time: ", rplus rdigit, rlit ":", rplus rdigit,
      rlit ".", rplus rdigit]), .handleFumeFXProgress⟩,
  -- ".*FumeFX: Estimated Time: ([0-9]+:[0-9]+:[0-9]+)"
  ⟨rsearch (rcat [anyStar, rlit "FumeFX: Estimated Time: ", rplus rdigit, rlit ":", rplus rdigit,
      rlit ":", rplus rdigit]), .handleFumeFXProgress⟩]

/-- Licensing-error rules, lines 105-106. -/
def licensingRules : List MatchRule := [
  -- "FLEXlm error: .*"
  ⟨rsearch (rcat [rlit "FLEXlm error: ", anyStar]), .handleFatalError⟩,
  -- "Maya: License was not obtained"
  ⟨rsearch (rlit "Maya: License was not obtained"), .handleFatalError⟩]

/-- Command-line usage-error rule, line 109: "Usage: Render .*". -/
def usageRule : MatchRule := ⟨rsearch (rcat [rlit "Usage: Render ", anyStar]), .handleUsageError⟩

/-- Chunked-progress rules, lines 112-113. -/
def chunkedRules : List MatchRule := [
  -- "Finished Rendering.*\.([0-9]+)\.[^\.]+"
  ⟨rsearch (rcat [rlit "Finished Rendering", anyStar, rlit ".", rplus rdigit, rlit ".",
      rplus rnondot]), .handleChunkedProgress1⟩,
  -- ".*Finished Rendering.*"
  ⟨rsearch (rcat [anyStar, rlit "Finished Rendering", anyStar]), .handleChunkedProgress2⟩]

/-- CUDA fatal-error rules, lines 116-118. -/
def cudaRules : List MatchRule := [
  -- ".*CUDA_ERROR_UNKNOWN.*"
  ⟨rsearch (rcat [anyStar, rlit "CUDA_ERROR_UNKNOWN", anyStar]), .handleFatalError⟩,
  -- ".*Failed to init the CUDA driver API.*"
  ⟨rsearch (rcat [anyStar, rlit "Failed to init the CUDA driver API", anyStar]), .handleFatalError⟩,
  -- ".*The system does not support the required CUDA compute capabilities.*"
  ⟨rsearch (rcat [anyStar, rlit "The system does not support the required CUDA compute capabilities",
      anyStar]), .handleFatalError⟩]

/-- Status-message rule, line 121:
"Constructing shading groups|Rendering current frame". -/
def statusRule : MatchRule :=
  ⟨rsearch (Rx.alt (rlit "Constructing shading groups") (rlit "Rendering current frame")),
    .handleStatusMessage⟩

/-- Redshift GPU-affinity rule, line 125 (registered only when the renderer
is redshift): "redshiftSelectCudaDevices\.mel line \d+: Invalid device id: (\d+)$". -/
def redshiftAffinityRule : MatchRule :=
  ⟨rsearchEnd (rcat [rlit "redshiftSelectCudaDevices.mel line ", rplus rdigit,
      rlit ": Invalid device id: ", rplus rdigit]), .handleRedshiftGPUAffinityError⟩

/-- The generic catch-all, line 128: ".*Error: .*|.*Warning: .*". -/
def catchAllRule : MatchRule :=
  ⟨rsearch (Rx.alt (rcat [anyStar, rlit "Error: ", anyStar])
      (rcat [anyStar, rlit "Warning: ", anyStar])), .handleErrorMessage⟩

/-- Mental Ray rules, lines 131-134. -/
def mentalRayRules : List MatchRule := [
  -- "progr: +([0-9]+\.[0-9]+)% +rendered"
  ⟨rsearch (rcat [rlit "progr:", rplus (rchar ' '), rplus rdigit, rlit ".", rplus rdigit,
      rlit "%", rplus (rchar ' '), rlit "rendered"]), .handleMentalRayProgress⟩,
  -- "progr: +([0-9]+\.[0-9]+)% +computing final gather points"
  ⟨rsearch (rcat [rlit "progr:", rplus (rchar ' '), rplus rdigit, rlit ".", rplus rdigit,
      rlit "%", rplus (rchar ' '), rlit "computing final gather points"]), .handleMentalRayGathering⟩,
  -- "progr: writing image file .* \(frame ([0-9]+)\)"
  ⟨rsearch (rcat [rlit "progr: writing image file ", anyStar, rlit " (frame ", rplus rdigit,
      rlit ")"]), .handleMentalRayWritingFrame⟩,
  -- "progr: +rendering finished"
  ⟨rsearch (rcat [rlit "progr:", rplus (rchar ' '), rlit "rendering finished"]), .handleMentalRayComplete⟩]

/-- Completion rules feeding `HandleProgressMessage2`, lines 136-139. -/
def progress2Rules : List MatchRule := [
  -- "\| render done"
  ⟨rsearch (rlit "| render done"), .handleProgressMessage2⟩,
  -- "\[PROGRESS\] Completed frame*"  (the star applies to the final "e")
  ⟨rsearch (rcat [rlit "[PROGRESS] Completed fram", Rx.star (rchar 'e')]), .handleProgressMessage2⟩,
  -- ".*\[PROGRESS\] TURTLE rendering frame 100\.00.*"
  ⟨rsearch (rcat [anyStar, rlit "[PROGRESS] TURTLE rendering frame 100.00", anyStar]),
    .handleProgressMessage2⟩,
  -- ".*Render complete.*"
  ⟨rsearch (rcat [anyStar, rlit "Render complete", anyStar]), .handleProgressMessage2⟩]

/-- Percent rules feeding `HandleProgressMessage3`, lines 141-143. -/
def progress3Rules : List MatchRule := [
  -- "\[PROGRESS\] Percentage of rendering done: (.*)"
  ⟨rsearch (rcat [rlit "[PROGRESS] Percentage of rendering done: ", anyStar]), .handleProgressMessage3⟩,
  -- ".*\[PROGRESS\] TURTLE rendering frame ([0-9]+\.[0-9]+).*"
  ⟨rsearch (rcat [anyStar, rlit "[PROGRESS] TURTLE rendering frame ", rplus rdigit, rlit ".",
      rplus rdigit, anyStar]), .handleProgressMessage3⟩,
  -- ".*RIMG : +([0-9]+)%"
  ⟨rsearch (rcat [anyStar, rlit "RIMG :", rplus (rchar ' '), rplus rdigit, rlit "%"]),
    .handleProgressMessage3⟩]

/-- V-Ray rules, lines 148-158 (registered for vray and vrayexport). -/
def vrayRules : List MatchRule := [
  -- "V-Ray error: .*"
  ⟨rsearch (rcat [rlit "V-Ray error: ", anyStar]), .handleFatalError⟩,
  -- "V-Ray: Building light cache*"  (the star applies to the final "e")
  ⟨rsearch (rcat [rlit "V-Ray: Building light cach", Rx.star (rchar 'e')]), .handleVrayMessage⟩,
  -- "V-Ray: Prepass ([0-9]+) of ([0-9]+)*"  (the star applies to the group)
  ⟨rsearch (rcat [rlit "V-Ray: Prepass ", rplus rdigit, rlit " of ", Rx.star (rplus rdigit)]),
    .handleVrayMessage⟩,
  -- "V-Ray: Rendering image*"  (the star applies to the final "e")
  ⟨rsearch (rcat [rlit "V-Ray: Rendering imag", Rx.star (rchar 'e')]), .handleVrayMessage⟩,
  -- "V-Ray: +([0-9]+)%"
  ⟨rsearch (rcat [rlit "V-Ray:", rplus (rchar ' '), rplus rdigit, rlit "%"]), .handleVrayProgress⟩,
  -- "V-Ray: +([0-9]+) %"
  ⟨rsearch (rcat [rlit "V-Ray:", rplus (rchar ' '), rplus rdigit, rlit " %"]), .handleVrayProgress⟩,
  -- "([0-9]+) % completed"
  ⟨rsearch (rcat [rplus rdigit, rlit " % completed"]), .handleVrayProgress⟩,
  -- "V-Ray: Total frame time"
  ⟨rsearch (rlit "V-Ray: Total frame time"), .handleVrayFrameComplete⟩,
  -- "V-Ray: Updating frame at time ([0-9]+)"
  ⟨rsearch (rcat [rlit "V-Ray: Updating frame at time ", rplus rdigit]), .handleVrayExportProgress⟩,
  -- "V-Ray: Render complete"
  ⟨rsearch (rlit "V-Ray: Render complete"), .handleVrayExportComplete⟩]

/-- RenderMan rule, line 161: "rfm Notice: Rendering .* at ([0-9]+)". -/
def rendermanRule : MatchRule :=
  ⟨rsearch (rcat [rlit "rfm Notice: Rendering ", anyStar, rlit " at ", rplus rdigit]),
    .handleRendermanProgress⟩

/-- 3delight rules, lines 165-166. -/
def delightRules : List MatchRule := [
  -- ".*3DL ERROR .*"
  ⟨rsearch (rcat [anyStar, rlit "3DL ERROR ", anyStar]), .handleFatalError⟩,
  -- "\[\d+\.?\d* \d+\.?\d* \d+\.?\d*\]"
  ⟨rsearch (rcat [rlit "[", rplus rdigit, ropt (rchar '.'), Rx.star rdigit, rlit " ",
      rplus rdigit, ropt (rchar '.'), Rx.star rdigit, rlit " ",
      rplus rdigit, ropt (rchar '.'), Rx.star rdigit, rlit "]"]), .handlePointCloudOutput⟩]

/-- Arnold rules, lines 170-171. -/
def arnoldRules : List MatchRule := [
  -- "Plug-in, \"mtoa\", was not found on MAYA_PLUG_IN_PATH"
  ⟨rsearch (rlit "Plug-in, \"mtoa\", was not found on MAYA_PLUG_IN_PATH"), .handleFatalError⟩,
  -- "\[mtoa\] Failed batch render"
  ⟨rsearch (rlit "[mtoa] Failed batch render"), .handleFatalError⟩]

/-- Octane rules, lines 174-175. -/
def octaneRules : List MatchRule := [
  -- "Octane: starting animation of frame"
  ⟨rsearch (rlit "Octane: starting animation of frame"), .handleOctaneStartFrame⟩,
  -- "Octane: Refreshed image, ([0-9]+) samples per pixel of ([0-9]+)"
  ⟨rsearch (rcat [rlit "Octane: Refreshed image, ", rplus rdigit, rlit " samples per pixel of ",
      rplus rdigit]), .handleOctaneProgress⟩]

/-- Caustic Visualizer rules, lines 178-180. -/
def causticRules : List MatchRule := [
  -- "Executing frame ([0-9]+)"
  ⟨rsearch (rcat [rlit "Executing frame ", rplus rdigit]), .handleCausticVisualizerCurrentFrame⟩,
  -- "Rendering ([0-9]+) passes"
  ⟨rsearch (rcat [rlit "Rendering ", rplus rdigit, rlit " passes"]), .handleCausticVisualizerTotalPasses⟩,
  -- "Rendered to pass ([0-9]+)"
  ⟨rsearch (rcat [rlit "Rendered to pass ", rplus rdigit]), .handleCausticVisualizerCurrentPass⟩]

/-- Redshift fatal-error rules, lines 183-185. -/
def redshiftFatalRules : List MatchRule := [
  -- "Frame rendering aborted."  (the trailing dot is the regex any-char)
  ⟨rsearch (rcat [rlit "Frame rendering aborted", rany]), .handleFatalError⟩,
  -- "Rendering was internally aborted"
  ⟨rsearch (rlit "Rendering was internally aborted"), .handleFatalError⟩,
  -- "Cannot find procedure \"rsPreference\""
  ⟨rsearch (rlit "Cannot find procedure \"rsPreference\""), .handleFatalError⟩]

/-- Lowest-precedence percent rules, lines 187-188. -/
def finalProgressRules : List MatchRule := [
  -- "\[PROGRESS\] ([0-9]+) percent"
  ⟨rsearch (rcat [rlit "[PROGRESS] ", rplus rdigit, rlit " percent"]), .handleProgressMessage1⟩,
  -- "([0-9]+)%"
  ⟨rsearch (rcat [rplus rdigit, rlit "%"]), .handleProgressMessage1⟩]

/-- The rules registered before the generic catch-all (lines 96-125). -/
def preCatchAllRules (renderer : String) : List MatchRule :=
  fumeFXRules ++ licensingRules ++ [usageRule] ++ chunkedRules ++ cudaRules ++ [statusRule]
    ++ (if renderer == "redshift" then [redshiftAffinityRule] else [])

/-- The rules registered after the generic catch-all (lines 131-188). -/
def postCatchAllRules (renderer : String) : List MatchRule :=
  mentalRayRules ++ progress2Rules ++ progress3Rules
    ++ (if renderer == "vray" || renderer == "vrayexport" then vrayRules else [])
    ++ (if renderer == "renderman" || renderer == "rendermanris" || renderer == "rendermanexport"
        then [rendermanRule] else [])
    ++ (if renderer == "3delight" then delightRules else [])
    ++ (if renderer == "arnold" || renderer == "arnoldexport" then arnoldRules else [])
    ++ (if renderer == "octanerender" then octaneRules else [])
    ++ (if renderer == "causticvisualizer" then causticRules else [])
    ++ (if renderer == "redshift" then redshiftFatalRules else [])
    ++ finalProgressRules

/-- `InitializeProcess` (lines 96-188): the ordered stdout-handler registry
for a given (lowercased) renderer name. -/
def InitializeProcess (renderer : String) : List MatchRule :=
  preCatchAllRules renderer ++ [catchAllRule] ++ postCatchAllRules renderer

/-- First-match-wins line dispatch: the first rule in registration order
whose pattern matches the line. -/
def dispatch (rules : List MatchRule) (line : String) : Option MatchRule :=
  rules.find? (fun rule => rxAccepts rule.rx line)

/-! ## Progress state and the line handlers (lines 30-53, 940-944, 1087-1370) -/

/-- Per-task configuration read from the host: the task frame range
(`GetStartFrame`/`GetEndFrame`), the lowercased renderer name (line 102),
and the boolean job entries used by the handlers (possibly absent, with the
defaults applied at their use sites). -/
structure PluginConfig where
  startFrame : Int
  endFrame : Int
  renderer : String
  strictErrorChecking : Option Bool
  suppressWarnings : Option Bool
  ignoreError211 : Bool

/-- The mutable session state of the plugin instance: the class attributes
of lines 30-53 plus the FumeFX sub-state initialized in lines 87-93 and
`initialFrame` (line 62), together with the most recently reported progress
(`SetProgress`) and status message (`SetStatusMessage`). -/
structure PluginState where
  finishedFrameCount : Nat
  previousFinishedFrame : String
  skipNextFrame : Bool
  vrayRenderingImage : Bool
  causticCurrentFrame : Int
  causticTotalPasses : Int
  fumeFXStartFrame : Int
  fumeFXEndFrame : Int
  fumeFXCurrFrame : Int
  fumeFXMemUsed : String
  fumeFXFrameTime : String
  fumeFXEstTime : String
  initialFrame : Option Rat
  progress : Option Rat
  statusMessage : Option String
  deriving DecidableEq

/-- The state of a freshly constructed plugin instance (class attributes,
lines 30-53, and the FumeFX initial values of lines 87-93). -/
def initState : PluginState :=
  { finishedFrameCount := 0, previousFinishedFrame := "", skipNextFrame := false,
    vrayRenderingImage := false, causticCurrentFrame := 0, causticTotalPasses := 0,
    fumeFXStartFrame := 0, fumeFXEndFrame := 0, fumeFXCurrFrame := 0,
    fumeFXMemUsed := "0Mb", fumeFXFrameTime := "00:00.00", fumeFXEstTime := "00:00:00",
    initialFrame := none, progress := none, statusMessage := none }

/-- The state-resetting part of `PreRenderTasks` (lines 941-944), run once
at the start of each task; the rest of that method is host/environment
setup outside this model. -/
def PreRenderTasks (s : PluginState) : PluginState :=
  { s with finishedFrameCount := 0, previousFinishedFrame := "", skipNextFrame := false }

/-- `SetProgress`: record the most recently computed progress value. -/
def setProgress (s : PluginState) (q : Rat) : PluginState := { s with progress := some q }

/-- `SetStatusMessage`: record the most recent status message. -/
def setStatusMessage (s : PluginState) (m : String) : PluginState := { s with statusMessage := some m }

/-- `HandleChunkedProgress1` (lines 1096-1100): per-frame-number chunked
progress.  `frameNum` is `int(GetRegexMatch(1))`; the division is the Python
floor division `//`. -/
def HandleChunkedProgress1 (cfg : PluginConfig) (s : PluginState) (frameNum : Int) : PluginState :=
  if cfg.endFrame - cfg.startFrame + 1 ≠ 0 then
    setProgress s (((100 * (frameNum - cfg.startFrame + 1)).fdiv (cfg.endFrame - cfg.startFrame + 1) : Int) : Rat)
  else s

/-- `HandleChunkedProgress2` (lines 1102-1108): generic-completion chunked
progress; increments `FinishedFrameCount`, then divides (Python float `/`). -/
def HandleChunkedProgress2 (cfg : PluginConfig) (s : PluginState) : PluginState :=
  let s := { s with finishedFrameCount := s.finishedFrameCount + 1 }
  if cfg.endFrame - cfg.startFrame + 1 ≠ 0 then
    setProgress s ((100 * (s.finishedFrameCount : Rat)) / ((cfg.endFrame - cfg.startFrame + 1 : Int) : Rat))
  else s

/-- `HandleStatusMessage` (lines 1110-1111). -/
def HandleStatusMessage (s : PluginState) (matched : String) : PluginState :=
  setStatusMessage s matched

/-- `HandleProgressMessage1` (lines 1202-1207): generic trailing-percent
progress; the captured group is a digit string, so its `float(...)` value is
a natural number. -/
def HandleProgressMessage1 (cfg : PluginConfig) (s : PluginState) (percent : Nat) : PluginState :=
  if cfg.endFrame - cfg.startFrame + 1 ≠ 0 then
    setProgress s (((percent : Rat) + (s.finishedFrameCount : Rat) * 100) / ((cfg.endFrame - cfg.startFrame + 1 : Int) : Rat))
  else s

/-- `HandleProgressMessage2` (lines 1209-1214). -/
def HandleProgressMessage2 (cfg : PluginConfig) (s : PluginState) : PluginState :=
  let s := { s with finishedFrameCount := s.finishedFrameCount + 1 }
  if cfg.endFrame - cfg.startFrame + 1 ≠ 0 then
    setProgress s (((s.finishedFrameCount : Rat) * 100) / ((cfg.endFrame - cfg.startFrame + 1 : Int) : Rat))
  else s

/-- `HandleProgressMessage3` (lines 1216-1218): the captured text is fed to
`float(...)` directly. -/
def HandleProgressMessage3 (s : PluginState) (percent : Rat) : PluginState :=
  setProgress s percent

/-- `HandleVrayMessage` (lines 1220-1234). -/
def HandleVrayMessage (s : PluginState) (matched : String) : PluginState :=
  if pyContains matched "V-Ray: Building light cache" then
    setStatusMessage s "Building light cache."
  else if pyContains matched "V-Ray: Building global photon map" then
    setStatusMessage s matched
  else if pyContains matched "V-Ray: Prepass" then
    setStatusMessage s matched
  else if pyContains matched "V-Ray: Rendering image" then
    setStatusMessage { s with vrayRenderingImage := true } matched
  else s

/-- `HandleVrayProgress` (lines 1236-1241): the captured group is a digit
string. -/
def HandleVrayProgress (cfg : PluginConfig) (s : PluginState) (percent : Nat) : PluginState :=
  if s.vrayRenderingImage = true then
    if cfg.endFrame - cfg.startFrame + 1 ≠ 0 then
      setProgress s (((percent : Rat) + (s.finishedFrameCount : Rat) * 100) / ((cfg.endFrame - cfg.startFrame + 1 : Int) : Rat))
    else s
  else s

/-- `HandleVrayFrameComplete` (lines 1243-1246). -/
def HandleVrayFrameComplete (s : PluginState) : PluginState :=
  if s.vrayRenderingImage = true then
    { s with finishedFrameCount := s.finishedFrameCount + 1, vrayRenderingImage := false }
  else s

/-- `HandleVrayExportProgress` (lines 1248-1255). -/
def HandleVrayExportProgress (cfg : PluginConfig) (s : PluginState) : PluginState :=
  if cfg.renderer == "vrayexport" then
    let s := { s with finishedFrameCount := s.finishedFrameCount + 1 }
    if cfg.endFrame - cfg.startFrame + 1 ≠ 0 then
      setProgress s ((((s.finishedFrameCount : Int) - 1 : Int) : Rat) * 100 / ((cfg.endFrame - cfg.startFrame + 1 : Int) : Rat))
    else s
  else s

/-- `HandleVrayExportComplete` (lines 1257-1259). -/
def HandleVrayExportComplete (cfg : PluginConfig) (s : PluginState) : PluginState :=
  if cfg.renderer == "vrayexport" then setProgress s 100 else s

/-- `HandleRendermanProgress` (lines 1261-1277): the captured group is a
digit string fed to `float(...)`. -/
def HandleRendermanProgress (cfg : PluginConfig) (s : PluginState) (frame : Nat) (matched : String) : PluginState :=
  let totalFrames := cfg.endFrame - cfg.startFrame + 1
  let s :=
    if totalFrames > 1 then
      let currentFrame : Rat := (frame : Rat)
      let s := if s.initialFrame = none then { s with initialFrame := some currentFrame } else s
      let normalizedFrame :=
        if s.initialFrame.getD currentFrame > 1 then currentFrame - (cfg.startFrame : Rat) + 1
        else currentFrame
      setProgress s (normalizedFrame * 100 / ((totalFrames : Int) : Rat))
    else s
  setStatusMessage s matched

/-- `HandleOctaneStartFrame` (lines 1279-1280). -/
def HandleOctaneStartFrame (s : PluginState) : PluginState :=
  { s with finishedFrameCount := s.finishedFrameCount + 1 }

/-- `HandleOctaneProgress` (lines 1282-1290): both captured groups are digit
strings.  A zero `maxSamples` would raise `ZeroDivisionError` in the source;
`Rat` division by zero yields 0 here (no claim exercises that case). -/
def HandleOctaneProgress (cfg : PluginConfig) (s : PluginState) (currSamples maxSamples : Nat) (matched : String) : PluginState :=
  let s :=
    if cfg.endFrame - cfg.startFrame + 1 ≠ 0 then
      setProgress s ((((currSamples : Rat) * 100) / (maxSamples : Rat) + (((s.finishedFrameCount : Int) - 1 : Int) : Rat) * 100) / ((cfg.endFrame - cfg.startFrame + 1 : Int) : Rat))
    else s
  setStatusMessage s matched

/-- `HandleCausticVisualizerCurrentFrame` (lines 1293-1294). -/
def HandleCausticVisualizerCurrentFrame (s : PluginState) (frame : Int) : PluginState :=
  { s with causticCurrentFrame := frame }

/-- `HandleCausticVisualizerTotalPasses` (lines 1296-1297). -/
def HandleCausticVisualizerTotalPasses (s : PluginState) (passes : Int) : PluginState :=
  { s with causticTotalPasses := passes }

/-- `HandleCausticVisualizerCurrentPass` (lines 1299-1305): the inner
division is the Python floor division `//`, the outer one float `/`. -/
def HandleCausticVisualizerCurrentPass (cfg : PluginConfig) (s : PluginState) (pass : Int) : PluginState :=
  if s.causticTotalPasses > 0 then
    let totalFrameCount := cfg.endFrame - cfg.startFrame + 1
    if totalFrameCount ≠ 0 then
      let currentFrameCount := s.causticCurrentFrame - cfg.startFrame
      setProgress s ((((pass * 100).fdiv s.causticTotalPasses + currentFrameCount * 100 : Int) : Rat) / ((totalFrameCount : Int) : Rat))
    else s
  else s

/-- `HandleMentalRayProgress` (lines 1311-1317): the captured group is
`[0-9]+\.[0-9]+`, a nonnegative decimal. -/
def HandleMentalRayProgress (cfg : PluginConfig) (s : PluginState) (percent : Rat) (matched : String) : PluginState :=
  if cfg.endFrame - cfg.startFrame + 1 ≠ 0 then
    setStatusMessage
      (setProgress s ((percent + (s.finishedFrameCount : Rat) * 100) / ((cfg.endFrame - cfg.startFrame + 1 : Int) : Rat)))
      matched
  else s

/-- `HandleMentalRayComplete` (lines 1319-1327): consumes the one-shot skip
flag, otherwise counts the finished frame and reports progress. -/
def HandleMentalRayComplete (cfg : PluginConfig) (s : PluginState) : PluginState :=
  if s.skipNextFrame then
    { s with skipNextFrame := false }
  else
    let s := { s with finishedFrameCount := s.finishedFrameCount + 1 }
    if cfg.endFrame - cfg.startFrame + 1 ≠ 0 then
      setProgress s (((s.finishedFrameCount : Rat) * 100) / ((cfg.endFrame - cfg.startFrame + 1 : Int) : Rat))
    else s

/-- `HandleMentalRayGathering` (lines 1329-1331). -/
def HandleMentalRayGathering (s : PluginState) (matched : String) : PluginState :=
  setStatusMessage s matched

/-- `HandleMentalRayWritingFrame` (lines 1333-1338): the duplicate-frame
detector.  `frame` is `GetRegexMatch(1)`, kept as a string as in the source. -/
def HandleMentalRayWritingFrame (s : PluginState) (frame : String) : PluginState :=
  if s.previousFinishedFrame = frame then
    { s with skipNextFrame := true }
  else
    { s with previousFinishedFrame := frame }

/-- `HandleFumeFXProgress` (lines 1340-1358), split by which of the five
FumeFX patterns matched (the source re-dispatches on the matched text with
`re.match`).  The FumeFX frame numbers match `[-]?[0-9]+`, so they are
integers; a simulation span with `end - start + 1 = 0` would raise
`ZeroDivisionError` in the source (no claim exercises that case; `Rat`
division by zero yields 0 here). -/
def HandleFumeFXStart (s : PluginState) (simStart simEnd : Int) : PluginState :=
  { s with fumeFXStartFrame := simStart, fumeFXEndFrame := simEnd }

/-- FumeFX "Frame:" branch (lines 1344-1350). -/
def HandleFumeFXFrame (s : PluginState) (frame : Int) : PluginState :=
  let s := { s with fumeFXCurrFrame := frame }
  let denominator : Rat := ((s.fumeFXEndFrame : Rat) - (s.fumeFXStartFrame : Rat) + 1)
  let s := setProgress s ((((s.fumeFXCurrFrame : Rat) - (s.fumeFXStartFrame : Rat) + 1) / denominator) * 100)
  setStatusMessage s ("FumeFX: (" ++ toString s.fumeFXCurrFrame ++ " to " ++ toString s.fumeFXEndFrame
    ++ ") - Mem: " ++ s.fumeFXMemUsed ++ " - LastTime: " ++ s.fumeFXFrameTime
    ++ " - ETA: " ++ s.fumeFXEstTime)

/-- FumeFX "Memory used:" branch (lines 1351-1352). -/
def HandleFumeFXMem (s : PluginState) (mem : String) : PluginState :=
  { s with fumeFXMemUsed := mem }

/-- FumeFX "Frame Time:" branch (lines 1353-1354). -/
def HandleFumeFXFrameTime (s : PluginState) (t : String) : PluginState :=
  { s with fumeFXFrameTime := t }

/-- FumeFX "Estimated Time:" branch (lines 1355-1356). -/
def HandleFumeFXEstTime (s : PluginState) (t : String) : PluginState :=
  { s with fumeFXEstTime := t }

/-- One matched line, tagged by the handler its rule fires together with
the captured groups that handler reads (`GetRegexMatch(...)` and, for the
usage error, the host accessors it queries). -/
inductive Evt where
  | fatalError (matched : String)
  | usageError (renderArguments previousLine : String)
  | pointCloud
  | chunkedProgress1 (frameNum : Int)
  | chunkedProgress2
  | statusMessage (matched : String)
  | redshiftGPUAffinityError (deviceId : String)
  | errorMessage (matched : String)
  | progressMessage1 (percent : Nat)
  | progressMessage2
  | progressMessage3 (percent : Rat)
  | vrayMessage (matched : String)
  | vrayProgress (percent : Nat)
  | vrayFrameComplete
  | vrayExportProgress
  | vrayExportComplete
  | rendermanProgress (frame : Nat) (matched : String)
  | octaneStartFrame
  | octaneProgress (currSamples maxSamples : Nat) (matched : String)
  | causticCurrentFrame (frame : Int)
  | causticTotalPasses (passes : Int)
  | causticCurrentPass (pass : Int)
  | mentalRayProgress (percent : Rat) (matched : String)
  | mentalRayComplete
  | mentalRayGathering (matched : String)
  | mentalRayWritingFrame (frame : String)
  | fumeFXStart (simStart simEnd : Int)
  | fumeFXFrame (frame : Int)
  | fumeFXMem (mem : String)
  | fumeFXFrameTime (t : String)
  | fumeFXEstTime (t : String)

/-- The Redshift GPU-affinity failure message (line 1370). -/
def redshiftAffinityFailMsg (deviceId : String) : String :=
  "Redshift has detected that the selected GPU " ++ apos ++ deviceId ++ apos
    ++ " is invalid. Failing the task to prevent Redshift from using all GPUs."

/-- The usage-error failure message (line 1094). -/
def usageFailMsg (renderArguments previousLine : String) : String :=
  "Bad command line arguments: " ++ renderArguments ++ "\nMaya Error: " ++ previousLine

/-- Run one handler invocation: the new state, plus `some reason` when the
handler called `FailRender` (which aborts the task). -/
def applyEvent (cfg : PluginConfig) (s : PluginState) : Evt → PluginState × Option String
  | .fatalError matched => (s, some matched)
  | .usageError args prev => (s, some (usageFailMsg args prev))
  | .pointCloud => (s, none)
  | .chunkedProgress1 f => (HandleChunkedProgress1 cfg s f, none)
  | .chunkedProgress2 => (HandleChunkedProgress2 cfg s, none)
  | .statusMessage m => (HandleStatusMessage s m, none)
  | .redshiftGPUAffinityError d => (s, some (redshiftAffinityFailMsg d))
  | .errorMessage m =>
      match HandleErrorMessage cfg.strictErrorChecking cfg.suppressWarnings m with
      | .fail reason => (s, some reason)
      | _ => (s, none)
  | .progressMessage1 p => (HandleProgressMessage1 cfg s p, none)
  | .progressMessage2 => (HandleProgressMessage2 cfg s, none)
  | .progressMessage3 p => (HandleProgressMessage3 s p, none)
  | .vrayMessage m => (HandleVrayMessage s m, none)
  | .vrayProgress p => (HandleVrayProgress cfg s p, none)
  | .vrayFrameComplete => (HandleVrayFrameComplete s, none)
  | .vrayExportProgress => (HandleVrayExportProgress cfg s, none)
  | .vrayExportComplete => (HandleVrayExportComplete cfg s, none)
  | .rendermanProgress f m => (HandleRendermanProgress cfg s f m, none)
  | .octaneStartFrame => (HandleOctaneStartFrame s, none)
  | .octaneProgress a b m => (HandleOctaneProgress cfg s a b m, none)
  | .causticCurrentFrame f => (HandleCausticVisualizerCurrentFrame s f, none)
  | .causticTotalPasses p => (HandleCausticVisualizerTotalPasses s p, none)
  | .causticCurrentPass p => (HandleCausticVisualizerCurrentPass cfg s p, none)
  | .mentalRayProgress p m => (HandleMentalRayProgress cfg s p m, none)
  | .mentalRayComplete => (HandleMentalRayComplete cfg s, none)
  | .mentalRayGathering m => (HandleMentalRayGathering s m, none)
  | .mentalRayWritingFrame f => (HandleMentalRayWritingFrame s f, none)
  | .fumeFXStart a b => (HandleFumeFXStart s a b, none)
  | .fumeFXFrame f => (HandleFumeFXFrame s f, none)
  | .fumeFXMem m => (HandleFumeFXMem s m, none)
  | .fumeFXFrameTime t => (HandleFumeFXFrameTime s t, none)
  | .fumeFXEstTime t => (HandleFumeFXEstTime s t, none)

/-- Process a sequence of matched lines in order; a `FailRender` aborts the
task, freezing the state at that point. -/
def processEvents (cfg : PluginConfig) (s : PluginState) : List Evt → PluginState
  | [] => s
  | e :: es =>
      match applyEvent cfg s e with
      | (s', none) => processEvents cfg s' es
      | (s', some _) => s'

/-- The list of states observed after each processed line (truncated at a
`FailRender`). -/
def runStates (cfg : PluginConfig) (s : PluginState) : List Evt → List PluginState
  | [] => []
  | e :: es =>
      match applyEvent cfg s e with
      | (s', none) => s' :: runStates cfg s' es
      | (s', some _) => [s']

/-! ## Theorems -/

/-- Every single handler invocation leaves `finishedFrameCount` unchanged
or increments it by exactly one. -/
theorem finishedFrameCount_step (cfg : PluginConfig) (s : PluginState) (e : Evt) :
    (applyEvent cfg s e).1.finishedFrameCount = s.finishedFrameCount
    ∨ (applyEvent cfg s e).1.finishedFrameCount = s.finishedFrameCount + 1 := by
  cases e <;>
    simp only [applyEvent, HandleChunkedProgress1, HandleChunkedProgress2, HandleStatusMessage,
      HandleProgressMessage1, HandleProgressMessage2, HandleProgressMessage3, HandleVrayMessage,
      HandleVrayProgress, HandleVrayFrameComplete, HandleVrayExportProgress,
      HandleVrayExportComplete, HandleRendermanProgress, HandleOctaneStartFrame,
      HandleOctaneProgress, HandleCausticVisualizerCurrentFrame,
      HandleCausticVisualizerTotalPasses, HandleCausticVisualizerCurrentPass,
      HandleMentalRayProgress, HandleMentalRayComplete, HandleMentalRayGathering,
      HandleMentalRayWritingFrame, HandleFumeFXStart, HandleFumeFXFrame, HandleFumeFXMem,
      HandleFumeFXFrameTime, HandleFumeFXEstTime, setProgress, setStatusMessage] <;>
    (repeat' split) <;> simp

/-- `HandleChunkedProgress2` increments `finishedFrameCount` by exactly one. -/
theorem handleChunkedProgress2_finishedFrameCount (cfg : PluginConfig) (s : PluginState) :
    (HandleChunkedProgress2 cfg s).finishedFrameCount = s.finishedFrameCount + 1 := by
  simp only [HandleChunkedProgress2, setProgress]
  split <;> rfl

/-- `finishedFrameCount` never decreases over any processed line sequence. -/
theorem finishedFrameCount_le_processEvents (cfg : PluginConfig) :
    ∀ (es : List Evt) (s : PluginState),
      s.finishedFrameCount ≤ (processEvents cfg s es).finishedFrameCount := by
  intro es
  induction es with
  | nil => intro s; simp [processEvents]
  | cons e es ih =>
      intro s
      have hstep := finishedFrameCount_step cfg s e
      rcases h : applyEvent cfg s e with ⟨s', r⟩
      rw [h] at hstep
      dsimp only at hstep
      cases r with
      | none =>
          have := ih s'
          simp only [processEvents, h]
          omega
      | some msg =>
          simp only [processEvents, h]
          omega

/-- Over `k` generic-completion lines, `finishedFrameCount` grows by exactly
`k` (one per line). -/
theorem processEvents_replicate_chunked (cfg : PluginConfig) :
    ∀ (k : Nat) (s : PluginState),
      (processEvents cfg s (List.replicate k Evt.chunkedProgress2)).finishedFrameCount
        = s.finishedFrameCount + k := by
  intro k
  induction k with
  | zero => intro s; simp [processEvents]
  | succ n ih =>
      intro s
      rw [List.replicate_succ]
      simp only [processEvents, applyEvent]
      rw [ih, handleChunkedProgress2_finishedFrameCount]
      omega

/-- Claim C1: on a task with frame range 1-10, ten generic-completion
("Finished Rendering", no frame number) lines increment
`finishedFrameCount` by one per line and set
`percent = 100 * finishedFrameCount / (end - start + 1)` after each line,
giving exactly the progress sequence 10, 20, ..., 100 in order. -/
theorem C1_generic_completion_sequence :
    (runStates ⟨1, 10, "mayasoftware", none, none, false⟩
        (PreRenderTasks initState) (List.replicate 10 Evt.chunkedProgress2)).map
      (fun st => (st.finishedFrameCount, st.progress))
      = [(1, some 10), (2, some 20), (3, some 30), (4, some 40), (5, some 50),
         (6, some 60), (7, some 70), (8, some 80), (9, some 90), (10, some 100)] := by
  norm_num [runStates, processEvents, applyEvent, HandleChunkedProgress2, PreRenderTasks,
    initState, setProgress, List.replicate]

/-- Claim C2 counterexample: on the degenerate range start 5, end 2 (so
`end < start` but `end - start + 1 = -2 ≠ 0`), `HandleChunkedProgress1`
does perform a progress update (to `100 * (3-5+1) // (2-5+1) = 50`),
contradicting "when end < start the handler performs no progress update at
all". -/
theorem C2_counterexample :
    ((2 : Int) < 5)
    ∧ (HandleChunkedProgress1 ⟨5, 2, "mayasoftware", none, none, false⟩ initState 3).progress = some 50
    ∧ initState.progress = none := by
  refine ⟨by norm_num, ?_, rfl⟩
  rw [HandleChunkedProgress1, if_pos (by norm_num)]
  show some (((100 * ((3 : Int) - 5 + 1)).fdiv (2 - 5 + 1) : Int) : Rat) = some 50
  have h50 : ((-100 : Int)).fdiv (-2) = 50 := rfl
  norm_num [h50]

/-- Claim C2 (amended): for `start ≤ f ≤ end` the handler sets
`percent = 100 * (f - start + 1) // (end - start + 1)` (Python floor
division, as in the source); and when `end - start + 1 = 0` (that is,
`end = start - 1`) the handler performs no update at all. -/
theorem C2_chunked_progress_by_frame (cfg : PluginConfig) (s : PluginState) (f : Int) :
    (cfg.startFrame ≤ f → f ≤ cfg.endFrame →
      (HandleChunkedProgress1 cfg s f).progress
        = some (((100 * (f - cfg.startFrame + 1)).fdiv (cfg.endFrame - cfg.startFrame + 1) : Int) : Rat))
    ∧ (cfg.endFrame - cfg.startFrame + 1 = 0 → HandleChunkedProgress1 cfg s f = s) := by
  constructor
  · intro h1 h2
    have hne : cfg.endFrame - cfg.startFrame + 1 ≠ 0 := by omega
    simp [HandleChunkedProgress1, hne, setProgress]
  · intro h0
    simp [HandleChunkedProgress1, h0]

/-- Witness for C2: on range 1-10 with completed frame 3 the update is
`100 * 3 // 10 = 30`; on range 1-0 the handler is a no-op. -/
theorem C2_chunked_progress_by_frame_witness :
    (HandleChunkedProgress1 ⟨1, 10, "mayasoftware", none, none, false⟩ initState 3).progress
        = some (((100 * ((3 : Int) - 1 + 1)).fdiv 10 : Int) : Rat)
    ∧ HandleChunkedProgress1 ⟨1, 0, "mayasoftware", none, none, false⟩ initState 3 = initState :=
  ⟨(C2_chunked_progress_by_frame ⟨1, 10, "mayasoftware", none, none, false⟩ initState 3).1
      (by decide) (by decide),
    (C2_chunked_progress_by_frame ⟨1, 0, "mayasoftware", none, none, false⟩ initState 3).2
      (by decide)⟩

/-- Claim C3: exit-code classification: 0 is success for any flag; 206
fails with the fixed command-line/project-path/drive-root diagnostic for
any flag; 211 succeeds (with a log note) when `ignoreError211` and fails
otherwise; every other non-zero code fails with the generic
"Renderer returned non-zero error code N" message. -/
theorem C3_exit_code_classification (n : Int) (b : Bool) :
    CheckExitCode 0 b = .success none
    ∧ CheckExitCode 206 b = .fail cmdLineFailMsg
    ∧ CheckExitCode 211 true = .success (some code211Note)
    ∧ CheckExitCode 211 false = .fail (genericExitMsg 211)
    ∧ (n ≠ 0 → n ≠ 206 → ¬(n = 211 ∧ b = true) → CheckExitCode n b = .fail (genericExitMsg n)) := by
  refine ⟨by simp [CheckExitCode], by simp [CheckExitCode], by simp [CheckExitCode],
    by simp [CheckExitCode], ?_⟩
  intro h0 h206 h211
  rw [CheckExitCode, if_pos h0, if_neg h206, if_neg (by simpa using h211)]

/-- Witness for C3 at the concrete non-zero code 42. -/
theorem C3_exit_code_classification_witness :
    CheckExitCode 42 false = ExitOutcome.fail (genericExitMsg 42) :=
  (C3_exit_code_classification 42 false).2.2.2.2 (by decide) (by decide) (by decide)

/-- Claim C4: a catch-all-matched line containing "Cannot load scene" fails
the render regardless of the strict-error-checking (and warning-suppression)
configuration: the check precedes the strict/lenient branch. -/
theorem C4_cannot_load_scene_always_fatal (strictEntry suppressEntry : Option Bool)
    (msg : String) (h : pyContains msg "Cannot load scene" = true) :
    HandleErrorMessage strictEntry suppressEntry msg = .fail msg := by
  simp [HandleErrorMessage, h]

/-- Witness for C4 with strict checking explicitly disabled. -/
theorem C4_cannot_load_scene_always_fatal_witness :
    HandleErrorMessage (some false) none "Error: Cannot load scene /jobs/a.mb"
      = ErrEffect.fail "Error: Cannot load scene /jobs/a.mb" :=
  C4_cannot_load_scene_always_fatal (some false) none _ (by decide)

/-- Claim C5: for a catch-all line containing "could not get a license"
(and not "Cannot load scene"), the handler fails the task when strict error
checking is enabled; when strict error checking is disabled, every
catch-all match (not containing "Cannot load scene") is tolerated with a
logged warning and never fails. -/
theorem C5_strict_checking_toggle (strictEntry suppressEntry : Option Bool) (msg : String)
    (hno : pyContains msg "Cannot load scene" = false) :
    (pyContains msg "could not get a license" = true →
      getBooleanEntryWithDefault strictEntry true = true →
      HandleErrorMessage strictEntry suppressEntry msg = .fail (strictFailMsg msg))
    ∧ (getBooleanEntryWithDefault strictEntry true = false →
      HandleErrorMessage strictEntry suppressEntry msg = .warn strictOffNote) := by
  constructor
  · intro hlic hstrict
    have hig : ignoreErrorCheck msg = false := by simp [ignoreErrorCheck, hlic]
    simp [HandleErrorMessage, hno, hstrict, hig]
  · intro hstrict
    simp [HandleErrorMessage, hno, hstrict]

/-- Witness for C5: the same license-failure text fails with strict
checking on and is tolerated as a warning with strict checking off. -/
theorem C5_strict_checking_toggle_witness :
    HandleErrorMessage (some true) none "Error: could not get a license"
        = ErrEffect.fail (strictFailMsg "Error: could not get a license")
    ∧ HandleErrorMessage (some false) none "Error: could not get a license"
        = ErrEffect.warn strictOffNote :=
  ⟨(C5_strict_checking_toggle (some true) none _ (by decide)).1 (by decide) (by decide),
    (C5_strict_checking_toggle (some false) none _ (by decide)).2 (by decide)⟩

/-- Claim C6 counterexample: from a fresh task state, two consecutive
"writing frame 5" matches followed by ONE "render complete" signal leave
`finishedFrameCount` at 0, not 1: the duplicate sets the skip flag and the
single complete is consumed by it. -/
theorem C6_counterexample :
    (processEvents ⟨1, 10, "mayasoftware", none, none, false⟩ (PreRenderTasks initState)
        [Evt.mentalRayWritingFrame "5", Evt.mentalRayWritingFrame "5",
          Evt.mentalRayComplete]).finishedFrameCount = 0
    ∧ (processEvents ⟨1, 10, "mayasoftware", none, none, false⟩ (PreRenderTasks initState)
        [Evt.mentalRayWritingFrame "5", Evt.mentalRayWritingFrame "5",
          Evt.mentalRayComplete]).finishedFrameCount ≠ 1 := by decide

/-- Claim C6 (amended): from a fresh task state, two consecutive
"writing frame N" matches for the same `N` followed by TWO "render
complete" signals increment `finishedFrameCount` exactly once: the second
identical match sets the one-shot skip flag, the next "render complete"
consumes and clears it instead of incrementing, and the following one
increments normally. -/
theorem C6_duplicate_completion (cfg : PluginConfig) (n : String) (h : n ≠ "") :
    (HandleMentalRayWritingFrame (HandleMentalRayWritingFrame
        (PreRenderTasks initState) n) n).skipNextFrame = true
    ∧ (HandleMentalRayComplete cfg (HandleMentalRayWritingFrame (HandleMentalRayWritingFrame
        (PreRenderTasks initState) n) n)).skipNextFrame = false
    ∧ (HandleMentalRayComplete cfg (HandleMentalRayWritingFrame (HandleMentalRayWritingFrame
        (PreRenderTasks initState) n) n)).finishedFrameCount = 0
    ∧ (HandleMentalRayComplete cfg (HandleMentalRayComplete cfg (HandleMentalRayWritingFrame
        (HandleMentalRayWritingFrame (PreRenderTasks initState) n) n))).finishedFrameCount = 1 := by
  have h1 : ¬(("" : String) = n) := fun hh => h hh.symm
  simp only [HandleMentalRayWritingFrame, HandleMentalRayComplete, PreRenderTasks, initState,
    setProgress]
  simp only [h1, if_false, ite_false, if_true, ite_true, eq_self_iff_true]
  (repeat' split) <;> simp_all

/-- Witness for C6 with frame id "5" on a 1-10 task. -/
theorem C6_duplicate_completion_witness :
    (HandleMentalRayWritingFrame (HandleMentalRayWritingFrame
        (PreRenderTasks initState) "5") "5").skipNextFrame = true
    ∧ (HandleMentalRayComplete ⟨1, 10, "mayasoftware", none, none, false⟩
        (HandleMentalRayWritingFrame (HandleMentalRayWritingFrame
        (PreRenderTasks initState) "5") "5")).skipNextFrame = false
    ∧ (HandleMentalRayComplete ⟨1, 10, "mayasoftware", none, none, false⟩
        (HandleMentalRayWritingFrame (HandleMentalRayWritingFrame
        (PreRenderTasks initState) "5") "5")).finishedFrameCount = 0
    ∧ (HandleMentalRayComplete ⟨1, 10, "mayasoftware", none, none, false⟩
        (HandleMentalRayComplete ⟨1, 10, "mayasoftware", none, none, false⟩
        (HandleMentalRayWritingFrame (HandleMentalRayWritingFrame
        (PreRenderTasks initState) "5") "5"))).finishedFrameCount = 1 :=
  C6_duplicate_completion ⟨1, 10, "mayasoftware", none, none, false⟩ "5" (by decide)

/-- Claim C7 counterexample: with the arnold renderer active, the line
"Error: [mtoa] Failed batch render" matches both a specific fatal pattern
(the Arnold failed-batch rule, handled by `HandleFatalError`) and the
generic catch-all, yet under first-match-wins dispatch the handler of the
catch-all fires, because the Arnold rules are registered after the catch-all. -/
theorem C7_counterexample :
    ((dispatch (InitializeProcess "arnold") "Error: [mtoa] Failed batch render").map
        MatchRule.handler = some HandlerId.handleErrorMessage)
    ∧ ∃ r ∈ InitializeProcess "arnold", r.handler = HandlerId.handleFatalError
        ∧ rxAccepts r.rx "Error: [mtoa] Failed batch render" = true := by decide

/-- No rule registered before the generic catch-all carries the handler of
the catch-all. -/
theorem preCatchAll_no_catchall (renderer : String) :
    ∀ r ∈ preCatchAllRules renderer, r.handler ≠ HandlerId.handleErrorMessage := by
  cases hb : (renderer == "redshift") <;> simp only [preCatchAllRules, hb] <;> decide

/-- Claim C7 (amended): the catch-all is placed after the
renderer-independent error/fatal patterns (licensing, usage error, CUDA,
and the Redshift GPU-affinity rule): any line matching one of those rules
dispatches, under first-match-wins, to a rule registered before the
catch-all, never to the handler of the catch-all.  (Renderer-specific fatal
patterns - V-Ray, 3delight, Arnold, Redshift aborts - are registered after
the catch-all instead, see the counterexample.) -/
theorem C7_pre_catchall_fatal_preempts (renderer line : String)
    (h : ∃ r ∈ preCatchAllRules renderer,
        (r.handler = HandlerId.handleFatalError ∨ r.handler = HandlerId.handleUsageError
          ∨ r.handler = HandlerId.handleRedshiftGPUAffinityError)
        ∧ rxAccepts r.rx line = true) :
    ∃ r, dispatch (InitializeProcess renderer) line = some r
      ∧ r.handler ≠ HandlerId.handleErrorMessage := by
  obtain ⟨r0, hmem0, _, hacc0⟩ := h
  have hsome : ((preCatchAllRules renderer).find? (fun rule => rxAccepts rule.rx line)).isSome := by
    rw [List.find?_isSome]
    exact ⟨r0, hmem0, hacc0⟩
  obtain ⟨r1, hr1⟩ := Option.isSome_iff_exists.mp hsome
  refine ⟨r1, ?_, ?_⟩
  · unfold dispatch InitializeProcess
    rw [List.find?_append, List.find?_append, hr1]
    rfl
  · exact preCatchAll_no_catchall renderer r1 (List.mem_of_find?_eq_some hr1)

/-- Witness for C7 (amended): a FLEXlm licensing-failure line dispatches to
a pre-catch-all rule, not to the catch-all handler. -/
theorem C7_pre_catchall_fatal_preempts_witness :
    ∃ r, dispatch (InitializeProcess "mayasoftware") "FLEXlm error: license server down" = some r
      ∧ r.handler ≠ HandlerId.handleErrorMessage :=
  C7_pre_catchall_fatal_preempts "mayasoftware" "FLEXlm error: license server down" (by decide)

/-- Claim C8: `finishedFrameCount` is reset to 0 at task start
(`PreRenderTasks`); every handler invocation either leaves it unchanged or
increments it by one; it never decreases over any processed line sequence;
and across generic-completion lines it strictly increases by exactly one
per line. -/
theorem C8_finishedFrameCount_monotone (cfg : PluginConfig) (s : PluginState) :
    (PreRenderTasks s).finishedFrameCount = 0
    ∧ (∀ e : Evt, (applyEvent cfg s e).1.finishedFrameCount = s.finishedFrameCount
        ∨ (applyEvent cfg s e).1.finishedFrameCount = s.finishedFrameCount + 1)
    ∧ (∀ es : List Evt, s.finishedFrameCount ≤ (processEvents cfg s es).finishedFrameCount)
    ∧ (∀ k : Nat, (processEvents cfg s (List.replicate k Evt.chunkedProgress2)).finishedFrameCount
        = s.finishedFrameCount + k) :=
  ⟨rfl, fun e => finishedFrameCount_step cfg s e,
    fun es => finishedFrameCount_le_processEvents cfg es s,
    fun k => processEvents_replicate_chunked cfg k s⟩

/-- Claim C9 counterexample: on a single-frame task (range 1-1), two
generic-completion lines drive the computed progress to 200, outside
`[0, 100]`: nothing clamps the computation when more completion lines
arrive than the task has frames. -/
theorem C9_counterexample :
    (processEvents ⟨1, 1, "mayasoftware", none, none, false⟩ (PreRenderTasks initState)
        [Evt.chunkedProgress2, Evt.chunkedProgress2]).progress = some 200
    ∧ ¬((200 : Rat) ≤ 100) := by
  constructor
  · norm_num [processEvents, applyEvent, HandleChunkedProgress2, PreRenderTasks, initState,
      setProgress]
  · norm_num

/-- Claim C9 (amended): the computed progress stays in `[0, 100]` provided
the handler inputs stay within the frame budget of the task: `end ≥ start`,
the incremented `finishedFrameCount` does not exceed `end - start + 1`, and
a sub-frame percent line carries a percent at most 100.  (Without the
budget bound the value can leave the interval, see the counterexample.) -/
theorem C9_progress_bounds (cfg : PluginConfig) (s : PluginState) (percent : Nat)
    (hrange : cfg.startFrame ≤ cfg.endFrame)
    (hbudget : (s.finishedFrameCount : Int) + 1 ≤ cfg.endFrame - cfg.startFrame + 1)
    (hpercent : percent ≤ 100) :
    (∃ q, (HandleChunkedProgress2 cfg s).progress = some q ∧ 0 ≤ q ∧ q ≤ 100)
    ∧ (∃ q, (HandleProgressMessage1 cfg s percent).progress = some q ∧ 0 ≤ q ∧ q ≤ 100) := by
  have hne : cfg.endFrame - cfg.startFrame + 1 ≠ 0 := by omega
  have hposZ : (0 : Int) < cfg.endFrame - cfg.startFrame + 1 := by omega
  have hposQ : (0 : Rat) < ((cfg.endFrame - cfg.startFrame + 1 : Int) : Rat) := by
    exact_mod_cast hposZ
  have hbQ : ((s.finishedFrameCount : Rat) + 1) ≤ ((cfg.endFrame - cfg.startFrame + 1 : Int) : Rat) := by
    exact_mod_cast hbudget
  have hpQ : ((percent : Rat)) ≤ 100 := by exact_mod_cast hpercent
  constructor
  · simp only [HandleChunkedProgress2, setProgress, hne, ne_eq, not_false_eq_true, if_true,
      Option.some.injEq]
    refine ⟨_, rfl, ?_, ?_⟩
    · positivity
    · rw [div_le_iff₀ hposQ]
      push_cast at hbQ ⊢
      linarith
  · simp only [HandleProgressMessage1, setProgress, hne, ne_eq, not_false_eq_true, if_true,
      Option.some.injEq]
    refine ⟨_, rfl, ?_, ?_⟩
    · positivity
    · rw [div_le_iff₀ hposQ]
      push_cast at hbQ hpQ ⊢
      linarith

/-- Witness for C9 (amended): first completion line and a 50% sub-frame
line on a fresh 1-10 task both stay within `[0, 100]`. -/
theorem C9_progress_bounds_witness :
    (∃ q, (HandleChunkedProgress2 ⟨1, 10, "mayasoftware", none, none, false⟩
        (PreRenderTasks initState)).progress = some q ∧ 0 ≤ q ∧ q ≤ 100)
    ∧ (∃ q, (HandleProgressMessage1 ⟨1, 10, "mayasoftware", none, none, false⟩
        (PreRenderTasks initState) 50).progress = some q ∧ 0 ≤ q ∧ q ≤ 100) :=
  C9_progress_bounds ⟨1, 10, "mayasoftware", none, none, false⟩ (PreRenderTasks initState) 50
    (by decide) (by decide) (by decide)

/-- Claim C10: when the "StrictErrorChecking" entry is absent, strict error
checking defaults to enabled, so a catch-all line containing a known-fatal
substring (here the license-failure text) fails the task rather than being
tolerated as a warning. -/
theorem C10_strict_default_enabled (suppressEntry : Option Bool) (msg : String)
    (hno : pyContains msg "Cannot load scene" = false)
    (hlic : pyContains msg "could not get a license" = true) :
    getBooleanEntryWithDefault none true = true
    ∧ HandleErrorMessage none suppressEntry msg = .fail (strictFailMsg msg) := by
  refine ⟨rfl, ?_⟩
  have hig : ignoreErrorCheck msg = false := by simp [ignoreErrorCheck, hlic]
  simp [HandleErrorMessage, hno, hig, getBooleanEntryWithDefault]

/-- Witness for C10: the license-failure text fails under the default
(absent) strict-checking configuration. -/
theorem C10_strict_default_enabled_witness :
    getBooleanEntryWithDefault none true = true
    ∧ HandleErrorMessage none none "Warning: could not get a license for mayarender"
        = ErrEffect.fail (strictFailMsg "Warning: could not get a license for mayarender") :=
  C10_strict_default_enabled none "Warning: could not get a license for mayarender"
    (by decide) (by decide)
